import Mathlib

/- Verification of the client-side control logic of two scenes of the
Outline document-collaboration app:

- app/scenes/Search/Search.tsx: the query/filter/pagination state machine
  around fetchResults, handleQueryChange and handleTermChange;
- app/scenes/Document/Shared.tsx: slug resolution over the shared
  navigation tree (useDocumentId / findInTree) and the render-state
  selection of SharedDocumentScene (error classification, edit-mode
  redirect, post-login redirect cookie).

JS strings are modelled as Lean String; JS string suffix testing
(String.prototype.endsWith) is modelled over the character sequence.
Asynchronous service calls are modelled by passing the outcome of the
call as an explicit argument; component state updates become explicit
state-record transformations. -/

/-- JS String.prototype.endsWith, modelled on the character sequence:
s.endsWith(post) holds iff post's characters are a suffix of s's. -/
def strEndsWith (s post : String) : Bool :=
  post.data.isSuffixOf s.data

/-- A parsed URL query string (URLSearchParams): an ordered list of
key/value pairs. `getParam` models URLSearchParams.get, returning the
first value recorded for the key, or none (JS null) when absent. -/
def getParam (search : List (String × String)) (key : String) : Option String :=
  (search.find? fun p => p.1 == key).map Prod.snd

/-! ## Search scene (app/scenes/Search/Search.tsx) -/

/-- The parameter object built by fetchResults (Search.tsx lines 197-205).
`limit` is DEFAULT_PAGINATION_LIMIT, kept abstract as the pageSize
argument since its defining module (~/stores/BaseStore) is outside this
fragment. lodash isEqual on these objects is structural equality. -/
structure SearchParams where
  offset : Nat
  limit : Nat
  dateFilter : Option String
  includeArchived : Bool
  includeDrafts : Bool
  collectionId : Option String
  userId : Option String
deriving Repr, DecidableEq

/-- One element of the sequence returned by documents.search:
an object holding a document reference and a highlight context. -/
structure SearchHit where
  documentId : String
  context : String
deriving Repr, DecidableEq

/-- The component state of the Search scene that fetchResults reads and
writes: the observable fields query, offset, allowLoadMore, isLoading,
the parsed URL query params, and the dedup record lastQuery/lastParams.
lastParams is none before any fetch (the TS field starts undefined). -/
structure SearchState where
  query : String
  params : List (String × String)
  offset : Nat
  allowLoadMore : Bool
  isLoading : Bool
  lastQuery : String
  lastParams : Option SearchParams
deriving Repr, DecidableEq

/-- Getter includeArchived (Search.tsx lines 150-152):
this.params.get("includeArchived") === "true". -/
def SearchState.includeArchived (s : SearchState) : Bool :=
  getParam s.params "includeArchived" == some "true"

/-- Getter collectionId (Search.tsx lines 154-157): returns the param
value when truthy (non-null, non-empty), else undefined. -/
def SearchState.collectionId (s : SearchState) : Option String :=
  match getParam s.params "collectionId" with
  | some id => if id = "" then none else some id
  | none => none

/-- Getter userId (Search.tsx lines 159-162). -/
def SearchState.userId (s : SearchState) : Option String :=
  match getParam s.params "userId" with
  | some id => if id = "" then none else some id
  | none => none

/-- Getter dateFilter (Search.tsx lines 164-167). -/
def SearchState.dateFilter (s : SearchState) : Option String :=
  match getParam s.params "dateFilter" with
  | some id => if id = "" then none else some id
  | none => none

/-- The params object fetchResults builds from the current state
(Search.tsx lines 197-205). -/
def buildParams (pageSize : Nat) (s : SearchState) : SearchParams :=
  { offset := s.offset
    limit := pageSize
    dateFilter := s.dateFilter
    includeArchived := s.includeArchived
    includeDrafts := true
    collectionId := s.collectionId
    userId := s.userId }

/-- The dedup guard condition (Search.tsx line 208):
this.lastQuery === this.query && isEqual(params, this.lastParams). -/
def isDedup (pageSize : Nat) (s : SearchState) : Prop :=
  s.lastQuery = s.query ∧ s.lastParams = some (buildParams pageSize s)

instance (pageSize : Nat) (s : SearchState) : Decidable (isDedup pageSize s) :=
  inferInstanceAs (Decidable (_ ∧ _))

/-- Outcome of the awaited documents.search call: the returned result
list, or a thrown error. -/
inductive ServiceOutcome where
  | ok (results : List SearchHit)
  | err
deriving Repr

/-- What one run of fetchResults produces: the new component state,
whether the search service was called, whether searches.add ran, and
whether the error was rethrown to the caller. -/
structure FetchResult where
  state : SearchState
  calledService : Bool
  addedRecentSearch : Bool
  threw : Bool
deriving Repr

/-- fetchResults (Search.tsx lines 194-243). The outcome of the awaited
documents.search call is passed explicitly. The try/catch/finally
structure becomes: on ok, apply the pagination update then clear
isLoading; on err, clear lastQuery, rethrow, and clear isLoading. -/
def fetchResults (pageSize : Nat) (outcome : ServiceOutcome) (s : SearchState) :
    FetchResult :=
  if s.query ≠ "" then
    -- lines 207-211: we just requested this thing, no need to try again
    if isDedup pageSize s then
      { state := { s with isLoading := false }
        calledService := false, addedRecentSearch := false, threw := false }
    else
      -- lines 213-215
      let s1 : SearchState :=
        { s with isLoading := true, lastQuery := s.query
                 lastParams := some (buildParams pageSize s) }
      match outcome with
      | .ok results =>
        -- lines 218-232: searches.add, then the pagination update
        let s2 : SearchState :=
          if results.length = 0 ∨ results.length < pageSize then
            { s1 with allowLoadMore := false }
          else
            { s1 with offset := s1.offset + pageSize }
        { state := { s2 with isLoading := false }
          calledService := true, addedRecentSearch := true, threw := false }
      | .err =>
        -- lines 233-238
        { state := { s1 with lastQuery := "", isLoading := false }
          calledService := true, addedRecentSearch := false, threw := true }
  else
    -- lines 239-242
    { state := { s with isLoading := false, lastQuery := s.query }
      calledService := false, addedRecentSearch := false, threw := false }

/-- The state handleQueryChange establishes before it calls fetchResults
(Search.tsx lines 114-120): re-parse the URL search string, reset
offset and allowLoadMore, and set isLoading. -/
def handleQueryChangePre (search : List (String × String)) (s : SearchState) :
    SearchState :=
  { s with params := search, offset := 0, allowLoadMore := true, isLoading := true }

/-- handleQueryChange (Search.tsx lines 114-121). -/
def handleQueryChange (pageSize : Nat) (outcome : ServiceOutcome)
    (search : List (String × String)) (s : SearchState) : FetchResult :=
  fetchResults pageSize outcome (handleQueryChangePre search s)

/-- The state handleTermChange establishes before it calls fetchResults
(Search.tsx lines 123-130). `term` is the route path segment after
decodeURIComponentSafe; the TS `query ? query : ""` is the identity on
strings since only "" is falsy. -/
def handleTermChangePre (term : String) (s : SearchState) : SearchState :=
  { s with query := term, offset := 0, allowLoadMore := true, isLoading := true }

/-- handleTermChange (Search.tsx lines 123-131). -/
def handleTermChange (pageSize : Nat) (outcome : ServiceOutcome)
    (term : String) (s : SearchState) : FetchResult :=
  fetchResults pageSize outcome (handleTermChangePre term s)

/-! ## Shared document scene (app/scenes/Document/Shared.tsx) -/

/-- NavigationNode from @shared/types as used here: an id, a url, and
child nodes. -/
inductive NavigationNode : Type where
  | node (id : String) (url : String) (children : List NavigationNode)
deriving Repr

/-- Field accessor for the id of a navigation node. -/
def NavigationNode.id : NavigationNode → String
  | .node i _ _ => i

/-- Field accessor for the url of a navigation node. -/
def NavigationNode.url : NavigationNode → String
  | .node _ u _ => u

/-- Field accessor for the children of a navigation node. -/
def NavigationNode.children : NavigationNode → List NavigationNode
  | .node _ _ cs => cs

mutual
/-- findInTree (Shared.tsx lines 64-77): if the node's url ends with the
slug, this node wins; otherwise recurse into the children in order.
The TS body assigns the id to the enclosing documentId and returns a
found flag; modelled here by returning the id directly as an Option. -/
def findInTree (documentSlug : String) : NavigationNode → Option String
  | .node i u cs =>
    if strEndsWith u documentSlug then some i
    else findInTreeList documentSlug cs

/-- The child loop of findInTree (Shared.tsx lines 69-75): first
successful recursive call wins. -/
def findInTreeList (documentSlug : String) : List NavigationNode → Option String
  | [] => none
  | c :: cs =>
    match findInTree documentSlug c with
    | some i => some i
    | none => findInTreeList documentSlug cs
end

/-- Document model fields used by this scene: id and canonical url. -/
structure DocumentModel where
  id : String
  url : String
deriving Repr, DecidableEq

/-- PublicTeam fields used by this scene. -/
structure PublicTeam where
  name : Option String
deriving Repr, DecidableEq

/-- The Response payload type of Shared.tsx lines 33-37. -/
structure Response where
  document : DocumentModel
  team : Option PublicTeam
  sharedTree : Option NavigationNode

/-- useDocumentId (Shared.tsx lines 61-84): run findInTree over the
shared tree when the response carries one; documentId stays undefined
(none) otherwise. -/
def useDocumentId (documentSlug : String) (response : Option Response) :
    Option String :=
  match response with
  | some r =>
    match r.sharedTree with
    | some t => findInTree documentSlug t
    | none => none
  | none => none

mutual
/-- Specification-side definition (not in the source): the depth-first
pre-order listing of the nodes of a tree, used to state what findInTree
computes. -/
def preorderNodes : NavigationNode → List NavigationNode
  | .node i u cs => .node i u cs :: preorderForest cs

/-- Specification-side definition: pre-order listing of a forest. -/
def preorderForest : List NavigationNode → List NavigationNode
  | [] => []
  | c :: cs => preorderNodes c ++ preorderForest cs
end

/-- The error value observed by the render branch of SharedDocumentScene:
which error classes (from ~/utils/errors) the thrown value is an
instance of. -/
structure AppError where
  isOfflineError : Bool
  isAuthorizationError : Bool
deriving Repr, DecidableEq

/-- The capability set returned by usePolicy for the document, restricted
to the abilities this scene reads. -/
structure Policy where
  update : Bool
  download : Bool
deriving Repr, DecidableEq

/-- The distinct render states SharedDocumentScene can return
(Shared.tsx lines 150-230). -/
inductive RenderView where
  | errorOffline
  | loginPrompt
  | error404
  | loading
  | redirect (url : String)
  | sharedView
deriving Repr, DecidableEq

/-- A render decision together with the cookie writes performed while
rendering (setCookie calls). -/
structure RenderOutput where
  view : RenderView
  cookieWrites : List (String × String)
deriving Repr, DecidableEq

/-- The render-state selection of SharedDocumentScene
(Shared.tsx lines 150-230): classify a recorded error first
(OfflineError, then AuthorizationError with the postLoginRedirectPath
cookie write, then the generic 404); show Loading until a response is
recorded; redirect to the document url when edit=true is in the query
string and the policy grants update; otherwise the read-only shared
view. The response && conjunct of line 181 is kept although it is
trivially true in its branch. -/
def renderSharedDocument (error : Option AppError) (response : Option Response)
    (searchParams : List (String × String)) (can : Policy) (pathname : String) :
    RenderOutput :=
  match error with
  | some e =>
    if e.isOfflineError then
      { view := .errorOffline, cookieWrites := [] }
    else if e.isAuthorizationError then
      { view := .loginPrompt, cookieWrites := [("postLoginRedirectPath", pathname)] }
    else
      { view := .error404, cookieWrites := [] }
  | none =>
    match response with
    | none => { view := .loading, cookieWrites := [] }
    | some r =>
      if getParam searchParams "edit" = some "true" ∧ can.update then
        { view := .redirect r.document.url, cookieWrites := [] }
      else
        { view := .sharedView, cookieWrites := [] }

/-! ## Helper lemmas -/

/-- Every string ends with the empty string. -/
theorem strEndsWith_empty (s : String) : strEndsWith s "" = true := by
  simp [strEndsWith, List.isSuffixOf]

/-- When the dedup guard fires, fetchResults only clears isLoading and
performs no service call. -/
theorem fetchResults_of_dedup (pageSize : Nat) (outcome : ServiceOutcome)
    (s : SearchState) (hq : s.query ≠ "") (hd : isDedup pageSize s) :
    fetchResults pageSize outcome s =
      { state := { s with isLoading := false }
        calledService := false, addedRecentSearch := false, threw := false } := by
  simp [fetchResults, hq, hd]

/-! ## Claim theorems -/

/-- Claim C3: document-identifier resolution is a depth-first pre-order
search returning the id of the first node whose url ends with
documentSlug; it returns none when no tree is present or no node
matches; and on the concrete tree with root id a, url /x and single
child id b, url /y/slug, the slug "slug" resolves to "b". -/
theorem useDocumentId_resolution :
    (∀ (slug : String) (t : NavigationNode),
      findInTree slug t
        = ((preorderNodes t).find? fun n => strEndsWith n.url slug).map
            NavigationNode.id) ∧
    (useDocumentId "slug"
        (some { document := { id := "b", url := "/d" }, team := none
                sharedTree := some (.node "a" "/x" [.node "b" "/y/slug" []]) })
      = some "b") ∧
    (∀ slug : String, useDocumentId slug none = none) ∧
    (∀ (slug : String) (d : DocumentModel) (team : Option PublicTeam),
      useDocumentId slug (some { document := d, team := team, sharedTree := none })
        = none) ∧
    (∀ (slug : String) (r : Response) (t : NavigationNode),
      r.sharedTree = some t →
      (∀ n ∈ preorderNodes t, strEndsWith n.url slug = false) →
      useDocumentId slug (some r) = none) := by
  have main : ∀ (slug : String) (t : NavigationNode),
      findInTree slug t
        = ((preorderNodes t).find? fun n => strEndsWith n.url slug).map
            NavigationNode.id := by
    intro slug t
    refine findInTree.induct slug
      (fun t => findInTree slug t
        = ((preorderNodes t).find? fun n => strEndsWith n.url slug).map
            NavigationNode.id)
      (fun l => findInTreeList slug l
        = ((preorderForest l).find? fun n => strEndsWith n.url slug).map
            NavigationNode.id)
      ?_ ?_ ?_ ?_ ?_ t
    · intro i u cs h
      simp [findInTree, preorderNodes, NavigationNode.url, NavigationNode.id, h]
    · intro i u cs h ih
      simp [findInTree, preorderNodes, NavigationNode.url, h, ih]
    · simp [findInTreeList, preorderForest]
    · intro c cs i h ih
      simp [findInTreeList, preorderForest, h]
      rw [h] at ih
      rcases Option.map_eq_some'.mp ih.symm with ⟨n, hn, hni⟩
      rw [hn]
      simp [hni]
    · intro c cs h ih1 ih2
      simp [findInTreeList, preorderForest, h]
      rw [h] at ih1
      have hnone : (preorderNodes c).find? (fun n => strEndsWith n.url slug) = none :=
        Option.map_eq_none'.mp ih1.symm
      simp [hnone, ih2]
  refine ⟨main, ?_, fun _ => rfl, fun _ _ _ => rfl, ?_⟩
  · simp [useDocumentId, findInTree, findInTreeList]
    decide
  · intro slug r t ht hmatch
    have : (preorderNodes t).find? (fun n => strEndsWith n.url slug) = none :=
      List.find?_eq_none.mpr (by intro n hn; simp [hmatch n hn])
    simp [useDocumentId, ht, main, this]

/-- Claim C3 witness: the theorem applied at concrete inputs. -/
theorem useDocumentId_resolution_witness :
    useDocumentId "slug"
        (some { document := { id := "b", url := "/d" }, team := none
                sharedTree := some (.node "a" "/x" [.node "b" "/y/slug" []]) })
      = some "b" ∧
    useDocumentId "zzz" none = none ∧
    useDocumentId "zzz"
        (some { document := { id := "a", url := "/a" }, team := none
                sharedTree := some (.node "a" "/x" []) })
      = none := by
  refine ⟨useDocumentId_resolution.2.1, useDocumentId_resolution.2.2.1 "zzz", ?_⟩
  refine useDocumentId_resolution.2.2.2.2 "zzz" _ (.node "a" "/x" []) rfl ?_
  intro n hn
  simp [preorderNodes, preorderForest] at hn
  subst hn
  decide

/-- Claim C10: the slug match is a raw string-suffix test on the node
url: the slug "oc" matches the url "/doc" across a path-segment
boundary, and the empty slug matches every url, so on every tree it
resolves to the root node's id. -/
theorem findInTree_suffix_matching :
    (findInTree "oc" (.node "a" "/doc" []) = some "a") ∧
    (∀ t : NavigationNode, findInTree "" t = some t.id) := by
  constructor
  · simp [findInTree]
    decide
  · intro t
    cases t with
    | node i u cs =>
      simp [findInTree, strEndsWith_empty, NavigationNode.id]

/-- Claim C7: both URL-driven handlers (query-string change and route
term change) reset offset to 0, allowLoadMore to true and isLoading to
true on the state they then hand to fetchResults. -/
theorem handlers_reset_pagination (search : List (String × String))
    (term : String) (s : SearchState) :
    ((handleQueryChangePre search s).offset = 0 ∧
     (handleQueryChangePre search s).allowLoadMore = true ∧
     (handleQueryChangePre search s).isLoading = true) ∧
    ((handleTermChangePre term s).offset = 0 ∧
     (handleTermChangePre term s).allowLoadMore = true ∧
     (handleTermChangePre term s).isLoading = true) ∧
    (∀ (pageSize : Nat) (outcome : ServiceOutcome),
      handleQueryChange pageSize outcome search s
        = fetchResults pageSize outcome (handleQueryChangePre search s) ∧
      handleTermChange pageSize outcome term s
        = fetchResults pageSize outcome (handleTermChangePre term s)) :=
  ⟨⟨rfl, rfl, rfl⟩, ⟨rfl, rfl, rfl⟩, fun _ _ => ⟨rfl, rfl⟩⟩

/-- Claim C8: with an empty query, fetchResults calls no service, does
not throw, clears isLoading, records lastQuery as the empty string, and
leaves offset and allowLoadMore unchanged. -/
theorem fetchResults_emptyQuery (pageSize : Nat) (outcome : ServiceOutcome)
    (s : SearchState) (hq : s.query = "") :
    (fetchResults pageSize outcome s).calledService = false ∧
    (fetchResults pageSize outcome s).threw = false ∧
    (fetchResults pageSize outcome s).state.isLoading = false ∧
    (fetchResults pageSize outcome s).state.lastQuery = "" ∧
    (fetchResults pageSize outcome s).state.offset = s.offset ∧
    (fetchResults pageSize outcome s).state.allowLoadMore = s.allowLoadMore := by
  simp [fetchResults, hq]

/-- Claim C8 witness: the theorem applied at a concrete empty-query
state. -/
theorem fetchResults_emptyQuery_witness :
    (fetchResults 25 .err
      { query := "", params := [], offset := 7, allowLoadMore := true
        isLoading := true, lastQuery := "x", lastParams := none }).calledService
      = false ∧
    (fetchResults 25 .err
      { query := "", params := [], offset := 7, allowLoadMore := true
        isLoading := true, lastQuery := "x", lastParams := none }).state.isLoading
      = false := by
  have h := fetchResults_emptyQuery 25 .err
    { query := "", params := [], offset := 7, allowLoadMore := true
      isLoading := true, lastQuery := "x", lastParams := none } rfl
  exact ⟨h.1, h.2.2.1⟩

/-- After a fetchResults run whose service call succeeded (or that was
deduplicated), the state's query is untouched and the dedup record holds
the query and params of this run. -/
theorem fetchResults_ok_state (pageSize : Nat) (results : List SearchHit)
    (s : SearchState) (hq : s.query ≠ "") :
    ((fetchResults pageSize (.ok results) s).state.query = s.query) ∧
    ((fetchResults pageSize (.ok results) s).state.lastQuery = s.query) ∧
    ((fetchResults pageSize (.ok results) s).state.lastParams
        = some (buildParams pageSize s)) := by
  by_cases hd : isDedup pageSize s
  · rw [fetchResults_of_dedup pageSize (.ok results) s hq hd]
    exact ⟨rfl, hd.1, hd.2⟩
  · by_cases hl : results = [] ∨ results.length < pageSize <;>
      simp [fetchResults, hq, hd, hl]

/-- Claim C1: a fetchResults run with a non-empty query that reaches the
service (no dedup) and gets a successful response: when the result count
is at least pageSize, allowLoadMore stays true and offset advances by
exactly pageSize; when the count is below pageSize (zero included),
allowLoadMore becomes false and offset is unchanged. Stated for the
positive pagination limit the app uses. -/
theorem fetchResults_pagination (pageSize : Nat) (results : List SearchHit)
    (s : SearchState) (hps : 0 < pageSize) (hq : s.query ≠ "")
    (hd : ¬ isDedup pageSize s) (hlm : s.allowLoadMore = true) :
    (fetchResults pageSize (.ok results) s).calledService = true ∧
    (pageSize ≤ results.length →
      (fetchResults pageSize (.ok results) s).state.allowLoadMore = true ∧
      (fetchResults pageSize (.ok results) s).state.offset = s.offset + pageSize) ∧
    (results.length < pageSize →
      (fetchResults pageSize (.ok results) s).state.allowLoadMore = false ∧
      (fetchResults pageSize (.ok results) s).state.offset = s.offset) := by
  refine ⟨?_, ?_, ?_⟩
  · simp [fetchResults, hq, hd]
  · intro hlen
    have hl : ¬ (results = [] ∨ results.length < pageSize) := by
      rintro (h | h)
      · subst h
        simp at hlen
        omega
      · omega
    simp [fetchResults, hq, hd, hl, hlm]
  · intro hlen
    have hl : results = [] ∨ results.length < pageSize := Or.inr hlen
    simp [fetchResults, hq, hd, hl]

/-- Claim C1 witness: the theorem applied at a concrete state, once with
a full page and once with a short page. -/
theorem fetchResults_pagination_witness :
    (fetchResults 1 (.ok [{ documentId := "d", context := "c" }])
      { query := "a", params := [], offset := 3, allowLoadMore := true
        isLoading := true, lastQuery := "", lastParams := none }).state.offset = 4 ∧
    (fetchResults 1 (.ok [])
      { query := "a", params := [], offset := 3, allowLoadMore := true
        isLoading := true, lastQuery := "", lastParams := none }).state.allowLoadMore
      = false := by
  have h1 := fetchResults_pagination 1 [{ documentId := "d", context := "c" }]
    { query := "a", params := [], offset := 3, allowLoadMore := true
      isLoading := true, lastQuery := "", lastParams := none }
    (by decide) (by decide) (by decide) (by decide)
  have h2 := fetchResults_pagination 1 []
    { query := "a", params := [], offset := 3, allowLoadMore := true
      isLoading := true, lastQuery := "", lastParams := none }
    (by decide) (by decide) (by decide) (by decide)
  exact ⟨(h1.2.1 (by decide)).2, (h2.2.2 (by decide)).1⟩

/-- Claim C2: two consecutive fetchResults runs with a non-empty query,
the first completing successfully, where the second run builds the same
parameter object as the first (identical query and params): the second
run performs no service call, leaves offset, allowLoadMore, lastQuery
and lastParams unchanged, and sets isLoading to false. -/
theorem fetchResults_dedup_second (pageSize : Nat) (results : List SearchHit)
    (o2 : ServiceOutcome) (s : SearchState) (hq : s.query ≠ "")
    (hp : buildParams pageSize (fetchResults pageSize (.ok results) s).state
          = buildParams pageSize s) :
    (fetchResults pageSize o2
        (fetchResults pageSize (.ok results) s).state).calledService = false ∧
    (fetchResults pageSize o2
        (fetchResults pageSize (.ok results) s).state).state.offset
      = (fetchResults pageSize (.ok results) s).state.offset ∧
    (fetchResults pageSize o2
        (fetchResults pageSize (.ok results) s).state).state.allowLoadMore
      = (fetchResults pageSize (.ok results) s).state.allowLoadMore ∧
    (fetchResults pageSize o2
        (fetchResults pageSize (.ok results) s).state).state.lastQuery
      = (fetchResults pageSize (.ok results) s).state.lastQuery ∧
    (fetchResults pageSize o2
        (fetchResults pageSize (.ok results) s).state).state.lastParams
      = (fetchResults pageSize (.ok results) s).state.lastParams ∧
    (fetchResults pageSize o2
        (fetchResults pageSize (.ok results) s).state).state.isLoading = false := by
  obtain ⟨hq1, hlq1, hlp1⟩ := fetchResults_ok_state pageSize results s hq
  have hq1' : (fetchResults pageSize (.ok results) s).state.query ≠ "" := by
    rw [hq1]; exact hq
  have hd1 : isDedup pageSize (fetchResults pageSize (.ok results) s).state := by
    refine ⟨by rw [hlq1, hq1], ?_⟩
    rw [hlp1, hp]
  rw [fetchResults_of_dedup pageSize o2 _ hq1' hd1]
  exact ⟨rfl, rfl, rfl, rfl, rfl, rfl⟩

/-- Claim C2 witness: the theorem applied at a concrete state whose
first run returns a short page, so the second run builds identical
params. -/
theorem fetchResults_dedup_second_witness :
    (fetchResults 2 (.ok [])
        (fetchResults 2 (.ok [])
          { query := "a", params := [], offset := 0, allowLoadMore := true
            isLoading := true, lastQuery := "", lastParams := none }).state).calledService
      = false := by
  exact (fetchResults_dedup_second 2 [] (.ok [])
    { query := "a", params := [], offset := 0, allowLoadMore := true
      isLoading := true, lastQuery := "", lastParams := none }
    (by decide) (by decide)).1

/-- Claim C4: a fetchResults run with a non-empty query that reaches the
service and whose call fails: the error is rethrown, lastQuery is reset
to the empty string (so an identical retry is not deduplicated),
isLoading is cleared, and offset and allowLoadMore are untouched. -/
theorem fetchResults_failure (pageSize : Nat) (s : SearchState)
    (hq : s.query ≠ "") (hd : ¬ isDedup pageSize s) :
    (fetchResults pageSize .err s).calledService = true ∧
    (fetchResults pageSize .err s).threw = true ∧
    (fetchResults pageSize .err s).state.lastQuery = "" ∧
    (fetchResults pageSize .err s).state.isLoading = false ∧
    (fetchResults pageSize .err s).state.offset = s.offset ∧
    (fetchResults pageSize .err s).state.allowLoadMore = s.allowLoadMore ∧
    ¬ isDedup pageSize (fetchResults pageSize .err s).state := by
  refine ⟨?_, ?_, ?_, ?_, ?_, ?_, ?_⟩ <;>
    simp [fetchResults, hq, hd]
  intro hcontra
  exact hq hcontra.1.symm

/-- Claim C4 witness: the theorem applied at a concrete state with a
failing service call. -/
theorem fetchResults_failure_witness :
    (fetchResults 25 .err
      { query := "a", params := [], offset := 5, allowLoadMore := false
        isLoading := true, lastQuery := "", lastParams := none }).threw = true ∧
    (fetchResults 25 .err
      { query := "a", params := [], offset := 5, allowLoadMore := false
        isLoading := true, lastQuery := "", lastParams := none }).state.lastQuery
      = "" := by
  have h := fetchResults_failure 25
    { query := "a", params := [], offset := 5, allowLoadMore := false
      isLoading := true, lastQuery := "", lastParams := none }
    (by decide) (by decide)
  exact ⟨h.2.1, h.2.2.1⟩

/-- Claim C5: with a recorded fetch error, the scene renders exactly one
of three states, chosen by testing the error classes in order: an
OfflineError (whatever else it is an instance of) renders the offline
fallback, otherwise an AuthorizationError renders the login prompt,
otherwise the generic not-found fallback. -/
theorem sharedError_classification (response : Option Response)
    (search : List (String × String)) (can : Policy) (path : String) :
    (∀ auth : Bool,
      (renderSharedDocument
          (some { isOfflineError := true, isAuthorizationError := auth })
          response search can path).view = RenderView.errorOffline) ∧
    ((renderSharedDocument
        (some { isOfflineError := false, isAuthorizationError := true })
        response search can path).view = RenderView.loginPrompt) ∧
    ((renderSharedDocument
        (some { isOfflineError := false, isAuthorizationError := false })
        response search can path).view = RenderView.error404) ∧
    (∀ e : AppError,
      (renderSharedDocument (some e) response search can path).view
          = RenderView.errorOffline ∨
      (renderSharedDocument (some e) response search can path).view
          = RenderView.loginPrompt ∨
      (renderSharedDocument (some e) response search can path).view
          = RenderView.error404) := by
  refine ⟨fun auth => rfl, rfl, rfl, fun e => ?_⟩
  by_cases ho : e.isOfflineError <;> by_cases ha : e.isAuthorizationError <;>
    simp [renderSharedDocument, ho, ha]

/-- Claim C9: on an AuthorizationError (and not an OfflineError, which
is tested first), rendering writes the current pathname under the cookie
key postLoginRedirectPath and shows the login prompt. -/
theorem sharedAuth_cookie (e : AppError) (response : Option Response)
    (search : List (String × String)) (can : Policy) (path : String)
    (ho : e.isOfflineError = false) (ha : e.isAuthorizationError = true) :
    (renderSharedDocument (some e) response search can path).view
        = RenderView.loginPrompt ∧
    (renderSharedDocument (some e) response search can path).cookieWrites
        = [("postLoginRedirectPath", path)] := by
  simp [renderSharedDocument, ho, ha]

/-- Claim C9 witness: the theorem applied at a concrete authorization
failure. -/
theorem sharedAuth_cookie_witness :
    (renderSharedDocument
        (some { isOfflineError := false, isAuthorizationError := true })
        none [] { update := false, download := false }
        "/share/abc/doc/xyz").cookieWrites
      = [("postLoginRedirectPath", "/share/abc/doc/xyz")] := by
  exact (sharedAuth_cookie
    { isOfflineError := false, isAuthorizationError := true }
    none [] { update := false, download := false }
    "/share/abc/doc/xyz" rfl rfl).2

/-- Claim C6 counterexample: the claim says the redirect fires whenever
the response is loaded, edit=true is present and update is granted; but
when an error is also recorded (reachable: a refetch after a slug change
fails while the earlier response is still in state), the error branch
returns first. At this concrete input all three named conditions hold
and the scene renders the not-found fallback, not the redirect. -/
theorem sharedEditRedirect_counterexample :
    (renderSharedDocument
        (some { isOfflineError := false, isAuthorizationError := false })
        (some { document := { id := "d1", url := "/doc/d1" }, team := none
                sharedTree := none })
        [("edit", "true")] { update := true, download := true }
        "/share/abc").view
      = RenderView.error404 := by
  simp [renderSharedDocument]

/-- Claim C6 amended: when no fetch error is recorded, the redirect to
the document's canonical url fires iff the response is loaded, the edit
query parameter equals "true", and the capability set grants update;
with a response but any of the two other conditions absent the read-only
shared view renders, and with no response the loading state renders. -/
theorem sharedEditRedirect (r : Response) (search : List (String × String))
    (can : Policy) (path : String) :
    ((renderSharedDocument none (some r) search can path).view
        = RenderView.redirect r.document.url
      ↔ (getParam search "edit" = some "true" ∧ can.update = true)) ∧
    (¬ (getParam search "edit" = some "true" ∧ can.update = true) →
      (renderSharedDocument none (some r) search can path).view
        = RenderView.sharedView) ∧
    ((renderSharedDocument none none search can path).view
        = RenderView.loading) := by
  by_cases hc : getParam search "edit" = some "true" ∧ can.update = true
  · refine ⟨?_, fun hn => absurd hc hn, rfl⟩
    have hc' : getParam search "edit" = some "true" ∧ can.update := ⟨hc.1, hc.2⟩
    simp [renderSharedDocument, hc', hc]
  · have hc' : ¬ (getParam search "edit" = some "true" ∧ can.update) := by
      intro h
      exact hc ⟨h.1, h.2⟩
    refine ⟨?_, fun _ => ?_, rfl⟩ <;>
      simp [renderSharedDocument, hc', hc]

/-- Claim C6 witness: the amended theorem applied at concrete inputs,
once with all conditions present (redirect) and once with edit absent
(shared view). -/
theorem sharedEditRedirect_witness :
    (renderSharedDocument none
        (some { document := { id := "d1", url := "/doc/d1" }, team := none
                sharedTree := none })
        [("edit", "true")] { update := true, download := true } "/p").view
      = RenderView.redirect "/doc/d1" ∧
    (renderSharedDocument none
        (some { document := { id := "d1", url := "/doc/d1" }, team := none
                sharedTree := none })
        [] { update := true, download := true } "/p").view
      = RenderView.sharedView := by
  constructor
  · exact (sharedEditRedirect
      { document := { id := "d1", url := "/doc/d1" }, team := none
        sharedTree := none }
      [("edit", "true")] { update := true, download := true } "/p").1.mpr
      (by constructor <;> rfl)
  · exact (sharedEditRedirect
      { document := { id := "d1", url := "/doc/d1" }, team := none
        sharedTree := none }
      [] { update := true, download := true } "/p").2.1 (by simp [getParam])
